import Mathlib

/-!
Verification of the AP2 + Aani demo core (PaymentLabs_AP2_Aani_Demo.py).

This file shallowly embeds the signing utility (`sign_payload`), the mock
settlement gateway (`mock_aani_payment_api`), the mandate data model and the
session-level lifecycle operations (consent / risk / payment / audit steps),
and proves the stated properties about them.

Modelling conventions:
- Python dicts signed by `sign_payload` are association lists of string keys
  to JSON-ish values (`JVal`).
- Python floats are modelled as rationals (`Rat`); the demo only ever signs
  and formats amounts with at most two decimal places.
- Calls to `random.choice` / `uuid.uuid4` / `now_iso` are modelled as extra
  explicit arguments (a `Fin 3` choice index, the uuid hex characters, a
  timestamp string), making each handler a pure function of its inputs.
- All strings produced and signed by the demo are ASCII, so UTF-8 encoding is
  modelled as the per-character code point.
-/

namespace AP2

/- ===================== SHA-256 (on byte lists) ===================== -/

/-- Reduction modulo 2^32, the word size of SHA-256. -/
def wmod (n : Nat) : Nat := n % 4294967296

/-- Right rotation of a 32-bit word (input assumed < 2^32). -/
def rotr (k n : Nat) : Nat := n / 2 ^ k + n % 2 ^ k * 2 ^ (32 - k)

/-- Logical right shift. -/
def shr (k n : Nat) : Nat := n / 2 ^ k

/-- Bitwise complement of a 32-bit word (input assumed < 2^32). -/
def not32 (n : Nat) : Nat := 4294967295 - n

def ch (x y z : Nat) : Nat := (x &&& y) ^^^ (not32 x &&& z)

def maj (x y z : Nat) : Nat := (x &&& y) ^^^ (x &&& z) ^^^ (y &&& z)

def bigS0 (x : Nat) : Nat := rotr 2 x ^^^ rotr 13 x ^^^ rotr 22 x

def bigS1 (x : Nat) : Nat := rotr 6 x ^^^ rotr 11 x ^^^ rotr 25 x

def smallS0 (x : Nat) : Nat := rotr 7 x ^^^ rotr 18 x ^^^ shr 3 x

def smallS1 (x : Nat) : Nat := rotr 17 x ^^^ rotr 19 x ^^^ shr 10 x

/-- The sixty-four per-round additive constants of the SHA-256 compression
function (FIPS 180-4), written in decimal. -/
def K256 : List Nat := [
  1116352408, 1899447441, 3049323471, 3921009573, 961987163, 1508970993,
  2453635748, 2870763221, 3624381080, 310598401, 607225278, 1426881987,
  1925078388, 2162078206, 2614888103, 3248222580, 3835390401, 4022224774,
  264347078, 604807628, 770255983, 1249150122, 1555081692, 1996064986,
  2554220882, 2821834349, 2952996808, 3210313671, 3336571891, 3584528711,
  113926993, 338241895, 666307205, 773529912, 1294757372, 1396182291,
  1695183700, 1986661051, 2177026350, 2456956037, 2730485921, 2820302411,
  3259730800, 3345764771, 3516065817, 3600352804, 4094571909, 275423344,
  430227734, 506948616, 659060556, 883997877, 958139571, 1322822218,
  1537002063, 1747873779, 1955562222, 2024104815, 2227730452, 2361852424,
  2428436474, 2756734187, 3204031479, 3329325298]

/-- Starting hash state of SHA-256 (FIPS 180-4), written in decimal. -/
def initH : List Nat := [
  1779033703, 3144134277, 1013904242, 2773480762,
  1359893119, 2600822924, 528734635, 1541459225]

/-- Split a list into consecutive chunks of length `k` (structural recursion
on a fuel argument so that it reduces definitionally; `l.length` steps always
suffice for `k ≥ 1`). -/
def chunksGo (k : Nat) : Nat → List α → List (List α)
  | _, [] => []
  | 0, _ :: _ => []
  | fuel + 1, x :: xs => (x :: xs).take k :: chunksGo k fuel ((x :: xs).drop k)

/-- Split a list into consecutive chunks of length `k`. -/
def chunksOf (k : Nat) (l : List α) : List (List α) := chunksGo k l.length l

/-- Big-endian word from a big-endian byte list. -/
def beWord (bs : List Nat) : Nat := bs.foldl (fun a b => a * 256 + b) 0

/-- The `k` low-order bytes of `n`, most significant first. -/
def bytesBE : Nat → Nat → List Nat
  | 0, _ => []
  | k + 1, n => bytesBE k (n / 256) ++ [n % 256]

/-- Append the next word of the SHA-256 message schedule. -/
def scheduleStep (w : List Nat) : List Nat :=
  let n := w.length
  w ++ [wmod (smallS1 (w.getD (n - 2) 0) + w.getD (n - 7) 0 +
              smallS0 (w.getD (n - 15) 0) + w.getD (n - 16) 0)]

/-- Iterate `scheduleStep` `k` times. -/
def extendW : Nat → List Nat → List Nat
  | 0, w => w
  | k + 1, w => extendW k (scheduleStep w)

/-- One SHA-256 compression round on the eight working registers. -/
def compressRound (st : List Nat) (kw : Nat) : List Nat :=
  match st with
  | [a, b, c, d, e, f, g, h] =>
    let t1 := wmod (h + bigS1 e + ch e f g + kw)
    let t2 := wmod (bigS0 a + maj a b c)
    [wmod (t1 + t2), a, b, c, wmod (d + t1), e, f, g]
  | st => st

/-- Process one 64-byte block. -/
def compressBlock (h0 : List Nat) (block : List Nat) : List Nat :=
  let w := extendW 48 ((chunksOf 4 block).map beWord)
  let kw := (K256.zip w).map (fun p => wmod (p.1 + p.2))
  let st := kw.foldl compressRound h0
  (h0.zip st).map (fun p => wmod (p.1 + p.2))

/-- SHA-256 of a byte list. -/
def sha256 (msg : List Nat) : List Nat :=
  let padded := msg ++ 128 ::
    (List.replicate ((120 - (msg.length + 1) % 64) % 64) 0 ++ bytesBE 8 (msg.length * 8))
  (((chunksOf 64 padded).foldl compressBlock initH).map (bytesBE 4)).flatten

/-- HMAC-SHA-256 (`hmac.new(key, msg, hashlib.sha256).digest()`). -/
def hmac_sha256 (key msg : List Nat) : List Nat :=
  let k0 := if 64 < key.length then sha256 key ++ List.replicate 32 0
            else key ++ List.replicate (64 - key.length) 0
  sha256 ((k0.map (fun b => b ^^^ 92)) ++ sha256 ((k0.map (fun b => b ^^^ 54)) ++ msg))

/- ===================== base64url and byte encoding ===================== -/

/-- The URL-safe base64 alphabet used by `base64.urlsafe_b64encode`. -/
def b64Alphabet : List Char :=
  "ABCDEFGHIJKLMNOPQRSTUVWXYZabcdefghijklmnopqrstuvwxyz0123456789-_".data

def b64c (n : Nat) : Char := b64Alphabet.getD n 'A'

/-- URL-safe base64 encoding with `=` padding. -/
def base64urlEncode : List Nat → List Char
  | [] => []
  | [b1] => [b64c (b1 / 4), b64c (b1 % 4 * 16), '=', '=']
  | [b1, b2] => [b64c (b1 / 4), b64c (b1 % 4 * 16 + b2 / 16), b64c (b2 % 16 * 4), '=']
  | b1 :: b2 :: b3 :: rest =>
      b64c (b1 / 4) :: b64c (b1 % 4 * 16 + b2 / 16) ::
      b64c (b2 % 16 * 4 + b3 / 64) :: b64c (b3 % 64) :: base64urlEncode rest

/-- Byte encoding of a string. All strings produced and signed by the demo are
ASCII, for which UTF-8 is the per-character code point. -/
def strBytes (s : String) : List Nat := s.data.map Char.toNat

/- ===================== Canonical JSON and sign_payload ===================== -/

/-- JSON-ish values occurring in the dicts the demo signs: strings, ints,
float amounts (modelled as rationals) and the flat string-valued `meta`
sub-dict of a mandate. -/
inductive JVal where
  | str (s : String)
  | int (n : Int)
  | num (q : Rat)
  | dict (fields : List (String × String))
deriving DecidableEq

/-- Lexicographic comparison of character lists by code point: exactly the
string order Python uses to sort dict keys in `json.dumps(..., sort_keys=True)`. -/
def lexLe : List Char → List Char → Bool
  | [], _ => true
  | _ :: _, [] => false
  | a :: as, b :: bs => if a = b then lexLe as bs else decide (a.toNat < b.toNat)

/-- Python's `<=` on strings. -/
def strLe (a b : String) : Bool := lexLe a.data b.data

/-- Key order used by `json.dumps(..., sort_keys=True)`: lexicographic
comparison of the keys. -/
def keyLE (a b : String × JVal) : Prop := strLe a.1 b.1 = true

instance : DecidableRel keyLE :=
  fun a b => inferInstanceAs (Decidable (strLe a.1 b.1 = true))

/-- Strict key order: `keyLE` together with distinct keys. -/
def keyLT (a b : String × JVal) : Prop := keyLE a b ∧ a.1 ≠ b.1

def keyLEs (a b : String × String) : Prop := strLe a.1 b.1 = true

instance : DecidableRel keyLEs :=
  fun a b => inferInstanceAs (Decidable (strLe a.1 b.1 = true))

/-- `sort_keys=True`: serialize mapping entries in ascending key order. -/
def sortPairs (p : List (String × JVal)) : List (String × JVal) :=
  List.insertionSort keyLE p

def sortStrPairs (p : List (String × String)) : List (String × String) :=
  List.insertionSort keyLEs p

/-- JSON string rendering. No character needing JSON escaping occurs in the
keys or string values the demo signs, so quoting suffices. -/
def jstr (s : String) : String := "\"" ++ s ++ "\""

/-- JSON rendering of a float amount, modelled on rationals. For whole
numbers this matches Python (`500.0`); other demo amounts have at most two
decimals and are never inspected by the verified properties. -/
def ratRepr (q : Rat) : String :=
  if q.den = 1 then toString q.num ++ ".0" else toString q

/-- JSON rendering of a value, with nested mapping keys sorted
(`json.dumps(v, sort_keys=True)`, default separators). -/
def dumpJVal : JVal → String
  | .str s => jstr s
  | .int n => toString n
  | .num q => ratRepr q
  | .dict fs =>
      "\x7b" ++ String.intercalate ", "
        ((sortStrPairs fs).map (fun kv => jstr kv.1 ++ ": " ++ jstr kv.2)) ++ "\x7d"

/-- `json.dumps(payload, sort_keys=True)` for a top-level dict payload. -/
def dumpPayload (p : List (String × JVal)) : String :=
  "\x7b" ++ String.intercalate ", "
    ((sortPairs p).map (fun kv => jstr kv.1 ++ ": " ++ dumpJVal kv.2)) ++ "\x7d"

/-- `sign_payload`: canonical JSON serialization of the payload, HMAC-SHA-256
under the fixed demo secret, URL-safe base64 text. -/
def sign_payload (payload : List (String × JVal)) (secret : String := "demo_secret_key") : String :=
  let payload_json := strBytes (dumpPayload payload)
  let digest := hmac_sha256 (strBytes secret) payload_json
  String.mk (base64urlEncode digest)

/- ===================== Data model ===================== -/

/-- The `Mandate` dataclass. `amount` (a Python float) is modelled as a
rational; `meta` is the flat string-valued dict built by the consent form. -/
structure Mandate where
  mandate_id : String
  mandate_type : String
  amount : Rat
  currency : String
  created_at : String
  issued_by : String
  status : String
  meta : List (String × String)
deriving DecidableEq

/-- `asdict(mandate)` as a signable payload (`mandate.to_dict()`); entry
order is irrelevant because `sign_payload` sorts keys. -/
def mandateToPayload (m : Mandate) : List (String × JVal) :=
  [("mandate_id", .str m.mandate_id), ("mandate_type", .str m.mandate_type),
   ("amount", .num m.amount), ("currency", .str m.currency),
   ("created_at", .str m.created_at), ("issued_by", .str m.issued_by),
   ("status", .str m.status), ("meta", .dict m.meta)]

/-- The fixed `st.session_state.agent_identity` record. -/
structure AgentIdentity where
  agent_id : String
  name : String
  pubkey : String
deriving DecidableEq

def agent_identity : AgentIdentity :=
  { agent_id := "agent-uae-fintech", name := "UAE Fintech Agent",
    pubkey := "demo_pubkey_UAE2025" }

/-- The `meta` sub-dict of a settlement response. -/
structure RespMeta where
  processor : String
  mode : String
deriving DecidableEq

/-- The dict returned by `mock_aani_payment_api`. `settlementTime` is an
`Option` so that absence of the key is expressible; the demo always sets it. -/
structure SettlementResponse where
  transactionId : String
  status : String
  amount : String
  currency : String
  rail : String
  settlementTime : Option String
  processingCode : String
  narrative : String
  meta : RespMeta
deriving DecidableEq

/-- `f"{x:.2f}"` two-decimal formatting of the amount. The demo's form
amounts are exact multiples of 0.01 (`min_value=0.01`, `step=1.00`), for
which integer division below is exact; float rounding of other values is
not modelled. -/
def fmt2 (q : Rat) : String :=
  let c : Int := (q * 100).num / ((q * 100).den : Int)
  (if c < 0 then "-" else "") ++ toString (c.natAbs / 100) ++ "." ++
    (if c.natAbs % 100 < 10 then "0" else "") ++ toString (c.natAbs % 100)

/-- The candidate list of `random.choice(["SETTLED", "PENDING", "FAILED"])`. -/
def statusChoices : List String := ["SETTLED", "PENDING", "FAILED"]

/-- `mock_aani_payment_api(mandate, rail)`. The `random.choice` draw is the
explicit index `rng`; the `uuid.uuid4().hex` characters and `now_iso()` are
the explicit `uuidHex` / `now` arguments. The mandate dict always carries a
`currency` key, so `mandate.get("currency", "AED")` is `m.currency`. -/
def mock_aani_payment_api (m : Mandate) (rail : String) (rng : Fin 3)
    (uuidHex : List Char) (now : String) : SettlementResponse :=
  let txid := "TX-" ++ String.mk ((uuidHex.take 12).map Char.toUpper)
  let status := statusChoices.getD rng.val "SETTLED"
  let (settlement_time, processing_code, narrative) :=
    if status = "SETTLED" then (some now, "00", "Payment successful")
    else if status = "PENDING" then (some now, "09", "Payment pending")
    else (some now, "05", "Payment failed")
  { transactionId := txid, status := status, amount := fmt2 m.amount,
    currency := m.currency, rail := rail, settlementTime := settlement_time,
    processingCode := processing_code, narrative := narrative,
    meta := { processor := if rail = "Aani" then "Aani-mock" else "UAEFTS-mock",
              mode := "test" } }

/-- The audit events the demo appends, as a tagged union mirroring the
per-event dict fields. -/
inductive AuditEvent where
  | mandateIssued (mandate_id mandate_type agent user timestamp signature : String)
  | cbuaeConsentRegistered (mandate_id timestamp note : String)
  | riskCheckEvent (mandate_id risk_level timestamp note : String)
  | intentConverted (mandate_id timestamp : String)
  | paymentExecuted (mandate_id transaction_id status rail timestamp : String)
      (agent : AgentIdentity) (signature : String) (response : SettlementResponse)
deriving DecidableEq

/-- The `"event"` field of an audit event dict. -/
def eventName : AuditEvent → String
  | .mandateIssued .. => "MANDATE_ISSUED"
  | .cbuaeConsentRegistered .. => "CBUAE_CONSENT_REGISTERED"
  | .riskCheckEvent .. => "RISK_CHECK"
  | .intentConverted .. => "INTENT_CONVERTED"
  | .paymentExecuted .. => "PAYMENT_EXECUTED"

/-- The `"signature"` field of an audit event dict, when present. -/
def eventSignature : AuditEvent → Option String
  | .mandateIssued _ _ _ _ _ sig => some sig
  | .paymentExecuted _ _ _ _ _ _ sig _ => some sig
  | _ => none

/-- The session state the handlers mutate: `st.session_state.mandates` and
`st.session_state.audit_log`. -/
structure SessionState where
  mandates : List Mandate
  audit_log : List AuditEvent
deriving DecidableEq

/-- Session state at startup: both collections empty. -/
def initialState : SessionState := { mandates := [], audit_log := [] }

/- ===================== Lifecycle operations ===================== -/

/-- The Consent step submit handler: builds the mandate, inserts it at the
head of the store (`insert(0, ...)`), signs its dict, appends the
`MANDATE_ISSUED` and `CBUAE_CONSENT_REGISTERED` events. The handler's
several same-second `now_iso()` calls are modelled as one timestamp. -/
def createMandate (s : SessionState) (user_name agent : String) (amount : Rat)
    (currency purpose : String) (uuidHex : List Char) (now : String) : SessionState :=
  let mandate_id := "M-" ++ String.mk ((uuidHex.take 10).map Char.toUpper)
  let m : Mandate :=
    { mandate_id := mandate_id, mandate_type := "IntentMandate", amount := amount,
      currency := currency, created_at := now, issued_by := user_name,
      status := "ACTIVE", meta := [("agent", agent), ("purpose", purpose)] }
  { mandates := m :: s.mandates,
    audit_log := s.audit_log ++
      [.mandateIssued m.mandate_id m.mandate_type agent user_name now
         (sign_payload (mandateToPayload m)),
       .cbuaeConsentRegistered m.mandate_id now
         "Consent registered with CBUAE API Hub (mock)"] }

/-- Constraint the consent form's amount widget imposes on submitted values
(`st.number_input("Amount (AED)", value=500.00, min_value=0.01, step=1.00)`). -/
def formAmountOk (a : Rat) : Bool := decide (mkRat 1 100 ≤ a)

/-- The options of the consent form's currency selectbox. -/
def formCurrencyOptions : List String := ["AED", "USD", "EUR"]

/-- The candidate list of `random.choice(["LOW", "MEDIUM", "HIGH"])`. -/
def riskChoices : List String := ["LOW", "MEDIUM", "HIGH"]

/-- Risk step mandate filter: `m.status in ("ACTIVE", "ISSUED")`. -/
def riskEligible (m : Mandate) : Bool := m.status == "ACTIVE" || m.status == "ISSUED"

/-- The Risk & AML step handler: the selectbox offers only filtered mandates,
the selected one is screened and a `RISK_CHECK` event appended. When no
eligible mandate matches the selection the handler is unreachable and the
state is unchanged. -/
def runRiskScreening (s : SessionState) (sel_id : String) (rng : Fin 3)
    (now : String) : SessionState :=
  match (s.mandates.filter riskEligible).find? (fun m => m.mandate_id == sel_id) with
  | none => s
  | some m =>
      { s with audit_log := s.audit_log ++
          [.riskCheckEvent m.mandate_id (riskChoices.getD rng.val "LOW") now
             "Sanctions & AML screening simulated"] }

/-- Payment step mandate filter:
`m.mandate_type in ("PaymentMandate", "IntentMandate") and m.status in ("ACTIVE", "ISSUED")`. -/
def payEligible (m : Mandate) : Bool :=
  (m.mandate_type == "PaymentMandate" || m.mandate_type == "IntentMandate") &&
  (m.status == "ACTIVE" || m.status == "ISSUED")

/-- Replace the first list element satisfying `p` by its image under `f`
(Python's in-place mutation of the aliased object found by `next(...)`). -/
def updateFirst (p : α → Bool) (f : α → α) : List α → List α
  | [] => []
  | x :: xs => if p x then f x :: xs else x :: updateFirst p f xs

/-- The Payment step handler: the selectbox offers only `payEligible`
mandates; the selected one (the first eligible store entry with that id,
aliased by `next(...)`) is executed, its `status` set to the raw gateway
status, and one `PAYMENT_EXECUTED` event appended embedding the full
response. When no eligible mandate matches the selection the handler is
unreachable and the state is unchanged. -/
def executePayment (s : SessionState) (sel_id rail : String) (rng : Fin 3)
    (uuidHex : List Char) (now : String) : SessionState :=
  match (s.mandates.filter payEligible).find? (fun m => m.mandate_id == sel_id) with
  | none => s
  | some m =>
      let response := mock_aani_payment_api m rail rng uuidHex now
      { mandates := updateFirst (fun x => payEligible x && x.mandate_id == sel_id)
          (fun x => { x with status := response.status }) s.mandates,
        audit_log := s.audit_log ++
          [.paymentExecuted m.mandate_id response.transactionId response.status rail now
             agent_identity
             (sign_payload [("mandate_id", .str m.mandate_id),
                            ("txid", .str response.transactionId)])
             response] }

/-- The Audit Trail step: renders `list(reversed(st.session_state.audit_log))`
and leaves the state untouched. -/
def auditStep (s : SessionState) : SessionState × List AuditEvent :=
  (s, s.audit_log.reverse)

inductive ConvertError where
  | invalidStateError
  | notFoundError
deriving DecidableEq

/-- Modelled from the spec: `convertMandate` does not appear in src/ (the
Payment step's "Create or convert one earlier" caption and the spec's
§4.1/§6 are its only traces). Per the spec it fails with `InvalidStateError`
unless `mandate.mandate_type == IntentMandate` and status is active/issued;
otherwise it mutates type to `PaymentMandate` and status to `ISSUED` in
place and emits `INTENT_CONVERTED`. -/
def convertMandate (s : SessionState) (sel_id : String) (now : String) :
    Except ConvertError SessionState :=
  match s.mandates.find? (fun m => m.mandate_id == sel_id) with
  | none => .error .notFoundError
  | some m =>
      if m.mandate_type == "IntentMandate" && (m.status == "ACTIVE" || m.status == "ISSUED") then
        .ok { mandates := updateFirst (fun x => x.mandate_id == sel_id)
                (fun x => { x with mandate_type := "PaymentMandate", status := "ISSUED" })
                s.mandates,
              audit_log := s.audit_log ++ [.intentConverted m.mandate_id now] }
      else .error .invalidStateError

/- ===================== Sample data for witnesses ===================== -/

/-- A concrete active intent mandate, as the consent flow creates them. -/
def sampleMandate : Mandate :=
  { mandate_id := "M-0001", mandate_type := "IntentMandate", amount := 500,
    currency := "AED", created_at := "2026-01-01T00:00:00Z",
    issued_by := "Test User", status := "ACTIVE",
    meta := [("agent", "agent-uae-fintech"), ("purpose", "demo")] }

/-- `sampleMandate` after a settled execution: no longer eligible. -/
def settledMandate : Mandate := { sampleMandate with status := "SETTLED" }

/-- `sampleMandate` converted to a payment mandate. -/
def paymentMandate0 : Mandate := { sampleMandate with mandate_type := "PaymentMandate" }

/- ===================== Helper lemmas ===================== -/

theorem char_toNat_inj {a b : Char} (h : a.toNat = b.toNat) : a = b := by
  cases a; cases b
  simp only [Char.toNat] at h
  congr 1
  exact UInt32.toNat.inj h

theorem lexLe_total : ∀ a b : List Char, lexLe a b = true ∨ lexLe b a = true
  | [], _ => Or.inl rfl
  | _ :: _, [] => Or.inr rfl
  | a :: as, b :: bs => by
    by_cases hab : a = b
    · subst hab
      simpa [lexLe] using lexLe_total as bs
    · have hn : a.toNat ≠ b.toNat := fun h => hab (char_toNat_inj h)
      rcases Nat.lt_or_ge a.toNat b.toNat with h | h
      · left; simp [lexLe, hab, h]
      · have hba : b.toNat < a.toNat := by omega
        right; simp [lexLe, Ne.symm hab, hba]

theorem lexLe_trans : ∀ a b c : List Char,
    lexLe a b = true → lexLe b c = true → lexLe a c = true
  | [], _, _, _, _ => rfl
  | _ :: _, [], _, h1, _ => by simp [lexLe] at h1
  | _ :: _, _ :: _, [], _, h2 => by simp [lexLe] at h2
  | a :: as, b :: bs, c :: cs, h1, h2 => by
    by_cases hab : a = b <;> by_cases hbc : b = c
    · subst hab; subst hbc
      simp only [lexLe, if_pos rfl] at h1 h2 ⊢
      exact lexLe_trans as bs cs h1 h2
    · subst hab
      simp only [lexLe, if_pos rfl] at h1
      simp only [lexLe, if_neg hbc] at h2 ⊢
      exact h2
    · subst hbc
      simp only [lexLe, if_neg hab] at h1 ⊢
      exact h1
    · simp only [lexLe, if_neg hab, if_neg hbc, decide_eq_true_eq] at h1 h2
      have hac : a.toNat < c.toNat := by omega
      have hne : a ≠ c := fun h => by subst h; omega
      simp [lexLe, if_neg hne, hac]

theorem lexLe_antisymm : ∀ a b : List Char,
    lexLe a b = true → lexLe b a = true → a = b
  | [], [], _, _ => rfl
  | [], _ :: _, _, h2 => by simp [lexLe] at h2
  | _ :: _, [], h1, _ => by simp [lexLe] at h1
  | a :: as, b :: bs, h1, h2 => by
    by_cases hab : a = b
    · subst hab
      simp only [lexLe, if_pos rfl] at h1 h2
      rw [lexLe_antisymm as bs h1 h2]
    · exfalso
      simp only [lexLe, if_neg hab, if_neg (Ne.symm hab), decide_eq_true_eq] at h1 h2
      omega

theorem strLe_antisymm {a b : String} (h1 : strLe a b = true) (h2 : strLe b a = true) :
    a = b := by
  cases a; cases b
  simp only [strLe] at h1 h2
  exact congrArg String.mk (lexLe_antisymm _ _ h1 h2)

/-- Sorting by key is insensitive to the order of entries when keys are
distinct: the canonicalization underlying `sign_payload`. -/
theorem sortPairs_eq_of_perm {p q : List (String × JVal)} (hperm : p.Perm q)
    (hnodup : (p.map Prod.fst).Nodup) : sortPairs p = sortPairs q := by
  haveI : IsTotal (String × JVal) keyLE := ⟨fun a b => lexLe_total a.1.data b.1.data⟩
  haveI : IsTrans (String × JVal) keyLE :=
    ⟨fun a b c h1 h2 => lexLe_trans a.1.data b.1.data c.1.data h1 h2⟩
  haveI : IsAntisymm (String × JVal) keyLT :=
    ⟨fun _ _ h1 h2 => absurd (strLe_antisymm h1.1 h2.1) h1.2⟩
  have hpq : (sortPairs p).Perm (sortPairs q) :=
    (List.perm_insertionSort keyLE p).trans
      (hperm.trans (List.perm_insertionSort keyLE q).symm)
  have hnodup' : (q.map Prod.fst).Nodup :=
    ((hperm.map Prod.fst).nodup_iff).mp hnodup
  have hpn : ((sortPairs p).map Prod.fst).Nodup :=
    (((List.perm_insertionSort keyLE p).map Prod.fst).nodup_iff).mpr hnodup
  have hqn : ((sortPairs q).map Prod.fst).Nodup :=
    (((List.perm_insertionSort keyLE q).map Prod.fst).nodup_iff).mpr hnodup'
  have hps : List.Sorted keyLE (sortPairs p) := List.sorted_insertionSort keyLE p
  have hqs : List.Sorted keyLE (sortPairs q) := List.sorted_insertionSort keyLE q
  have hp' : List.Sorted keyLT (sortPairs p) :=
    (hps.and (List.pairwise_map.mp hpn)).imp fun h => ⟨h.1, h.2⟩
  have hq' : List.Sorted keyLT (sortPairs q) :=
    (hqs.and (List.pairwise_map.mp hqn)).imp fun h => ⟨h.1, h.2⟩
  exact List.eq_of_perm_of_sorted hpq hp' hq'

theorem find?_filter (p q : α → Bool) :
    ∀ l : List α, (l.filter p).find? q = l.find? (fun x => p x && q x)
  | [] => rfl
  | x :: xs => by
    by_cases hp : p x
    · by_cases hq : q x
      · simp [List.filter_cons, hp, List.find?_cons_of_pos, hq]
      · have : (p x && q x) = false := by simp [hq]
        simp [List.filter_cons, hp, List.find?_cons_of_neg, hq, this,
              find?_filter p q xs]
    · have : (p x && q x) = false := by simp [hp]
      simp [List.filter_cons, hp, this, find?_filter p q xs]

theorem updateFirst_length (p : α → Bool) (f : α → α) :
    ∀ l : List α, (updateFirst p f l).length = l.length
  | [] => rfl
  | x :: xs => by
    by_cases h : p x <;> simp [updateFirst, h, updateFirst_length p f xs]

/-- The element found by `find?` is updated in place at its position. -/
theorem updateFirst_find? (p : α → Bool) (f : α → α) :
    ∀ {l : List α} {m : α}, l.find? p = some m →
      ∃ i, l.get? i = some m ∧ (updateFirst p f l).get? i = some (f m)
  | x :: xs, m, h => by
    by_cases hx : p x
    · rw [List.find?_cons_of_pos _ hx] at h
      cases h
      exact ⟨0, rfl, by simp [updateFirst, hx]⟩
    · rw [List.find?_cons_of_neg _ hx] at h
      obtain ⟨i, h1, h2⟩ := updateFirst_find? p f h
      exact ⟨i + 1, by simpa using h1, by simp [updateFirst, hx]; simpa using h2⟩

/-- A position whose entry changed held an element satisfying the predicate. -/
theorem updateFirst_get?_changed (p : α → Bool) (f : α → α) :
    ∀ (l : List α) (i : Nat), (updateFirst p f l).get? i ≠ l.get? i →
      ∃ x, l.get? i = some x ∧ p x = true ∧ (updateFirst p f l).get? i = some (f x)
  | [], _, h => absurd rfl h
  | x :: xs, 0, h => by
    by_cases hx : p x
    · exact ⟨x, rfl, hx, by simp [updateFirst, hx]⟩
    · simp [updateFirst, hx] at h
  | x :: xs, i + 1, h => by
    by_cases hx : p x
    · simp [updateFirst, hx] at h
    · simp only [updateFirst, if_neg hx, List.get?_cons_succ] at h ⊢
      exact updateFirst_get?_changed p f xs i h

/- ===================== Claims ===================== -/

set_option maxRecDepth 40000

set_option maxHeartbeats 1000000

/-- C1: `sign_payload` is deterministic and invariant to key insertion
order: payloads equal by value (permutations with distinct keys) yield the
same signature string; in particular
`sign({"a":1,"b":2}) == sign({"b":2,"a":1})` while
`sign({"a":1}) != sign({"a":2})`. -/
theorem sign_payload_key_order_invariant :
    (∀ p q : List (String × JVal), p.Perm q → (p.map Prod.fst).Nodup →
        sign_payload p = sign_payload q) ∧
    sign_payload [("a", .int 1), ("b", .int 2)] =
      sign_payload [("b", .int 2), ("a", .int 1)] ∧
    sign_payload [("a", .int 1)] ≠ sign_payload [("a", .int 2)] := by
  refine ⟨fun p q hperm hnodup => ?_, by decide, by decide⟩
  unfold sign_payload dumpPayload
  rw [sortPairs_eq_of_perm hperm hnodup]

/-- Witness for C1 at the claim's own concrete payloads. -/
theorem sign_payload_key_order_invariant_witness :
    sign_payload [("a", .int 1), ("b", .int 2)] =
      sign_payload [("b", .int 2), ("a", .int 1)] :=
  sign_payload_key_order_invariant.1 _ _ (by decide) (by decide)

/-- C3: the gateway's status is drawn from {SETTLED, PENDING, FAILED}
independently of the mandate and rail inputs, and the
(processing_code, narrative) pair is the fixed function of that status:
SETTLED → ("00", "Payment successful"), PENDING → ("09", "Payment pending"),
FAILED → ("05", "Payment failed"). -/
theorem mock_gateway_status_spec :
    ∀ (m : Mandate) (rail : String) (rng : Fin 3) (uuidHex : List Char)
      (now : String) (r : SettlementResponse),
      r = mock_aani_payment_api m rail rng uuidHex now →
      r.status ∈ statusChoices ∧
      (∀ (m' : Mandate) (rail' : String) (uuidHex' : List Char) (now' : String),
          (mock_aani_payment_api m' rail' rng uuidHex' now').status = r.status) ∧
      (r.status = "SETTLED" → r.processingCode = "00" ∧ r.narrative = "Payment successful") ∧
      (r.status = "PENDING" → r.processingCode = "09" ∧ r.narrative = "Payment pending") ∧
      (r.status = "FAILED" → r.processingCode = "05" ∧ r.narrative = "Payment failed") := by
  intro m rail rng uuidHex now r hr
  subst hr
  rcases rng with ⟨v, hv⟩
  interval_cases v
  · exact ⟨show ("SETTLED" : String) ∈ statusChoices by decide, fun _ _ _ _ => rfl,
      fun _ => ⟨rfl, rfl⟩,
      fun h => absurd h (show ¬ (("SETTLED" : String) = "PENDING") by decide),
      fun h => absurd h (show ¬ (("SETTLED" : String) = "FAILED") by decide)⟩
  · exact ⟨show ("PENDING" : String) ∈ statusChoices by decide, fun _ _ _ _ => rfl,
      fun h => absurd h (show ¬ (("PENDING" : String) = "SETTLED") by decide),
      fun _ => ⟨rfl, rfl⟩,
      fun h => absurd h (show ¬ (("PENDING" : String) = "FAILED") by decide)⟩
  · exact ⟨show ("FAILED" : String) ∈ statusChoices by decide, fun _ _ _ _ => rfl,
      fun h => absurd h (show ¬ (("FAILED" : String) = "SETTLED") by decide),
      fun h => absurd h (show ¬ (("FAILED" : String) = "PENDING") by decide),
      fun _ => ⟨rfl, rfl⟩⟩

/-- Witness for C3 at a concrete draw: the SETTLED branch's fixed pair. -/
theorem mock_gateway_status_spec_witness :
    (mock_aani_payment_api sampleMandate "Aani" 0 [] "T").processingCode = "00" ∧
    (mock_aani_payment_api sampleMandate "Aani" 0 [] "T").narrative = "Payment successful" :=
  (mock_gateway_status_spec sampleMandate "Aani" 0 [] "T" _ rfl).2.2.1 rfl

/-- C4 counterexample: on the FAILED draw the gateway still sets
`settlementTime` (to the call-time timestamp); the field is not absent. -/
theorem settlement_time_failed_counterexample :
    (mock_aani_payment_api sampleMandate "Aani" 2 [] "T").status = "FAILED" ∧
    (mock_aani_payment_api sampleMandate "Aani" 2 [] "T").settlementTime = some "T" :=
  ⟨rfl, rfl⟩

/-- C4 (amended): in every gateway response `settlement_time` is a timestamp
(the call-time now) for every status, FAILED included; it is never absent. -/
theorem settlement_time_always_present :
    ∀ (m : Mandate) (rail : String) (rng : Fin 3) (uuidHex : List Char) (now : String),
      (mock_aani_payment_api m rail rng uuidHex now).settlementTime = some now := by
  intro m rail rng uuidHex now
  rcases rng with ⟨v, hv⟩
  interval_cases v <;> rfl

/-- C5: payment execution only ever reaches a mandate of type
IntentMandate/PaymentMandate with status ACTIVE/ISSUED: any mandate offered
to execute satisfies the filter, when no eligible mandate matches the
selection the state is unchanged, and positions holding ineligible mandates
(e.g. SETTLED, FAILED, PENDING or REVOKED ones) are never mutated. -/
theorem execute_only_eligible :
    ∀ (s : SessionState) (sel_id rail : String) (rng : Fin 3) (uuidHex : List Char)
      (now : String),
      (∀ m, (s.mandates.filter payEligible).find? (fun x => x.mandate_id == sel_id) = some m →
          payEligible m = true ∧ m ∈ s.mandates ∧
          (m.mandate_type = "PaymentMandate" ∨ m.mandate_type = "IntentMandate") ∧
          (m.status = "ACTIVE" ∨ m.status = "ISSUED")) ∧
      ((s.mandates.filter payEligible).find? (fun x => x.mandate_id == sel_id) = none →
          executePayment s sel_id rail rng uuidHex now = s) ∧
      (∀ i, (executePayment s sel_id rail rng uuidHex now).mandates.get? i ≠
            s.mandates.get? i →
          ∃ x, s.mandates.get? i = some x ∧ payEligible x = true) := by
  intro s sel_id rail rng uuidHex now
  refine ⟨fun m hm => ?_, fun hnone => ?_, fun i hi => ?_⟩
  · have hmem := List.mem_of_find?_eq_some hm
    rw [List.mem_filter] at hmem
    obtain ⟨hin, hel⟩ := hmem
    have hel' := hel
    simp only [payEligible, Bool.and_eq_true, Bool.or_eq_true, beq_iff_eq] at hel'
    exact ⟨hel, hin, hel'.1, hel'.2⟩
  · unfold executePayment
    rw [hnone]
  · unfold executePayment at hi
    cases hfind : (s.mandates.filter payEligible).find? (fun x => x.mandate_id == sel_id) with
    | none => rw [hfind] at hi; exact absurd rfl hi
    | some m =>
        rw [hfind] at hi
        obtain ⟨x, hx1, hx2, _⟩ := updateFirst_get?_changed _ _ s.mandates i hi
        have hx2' : (payEligible x && (x.mandate_id == sel_id)) = true := hx2
        simp only [Bool.and_eq_true] at hx2'
        exact ⟨x, hx1, hx2'.1⟩

/-- Witness for C5: a state holding only an already-settled mandate is left
unchanged by the execute handler. -/
theorem execute_only_eligible_witness :
    executePayment ⟨[settledMandate], []⟩ "M-0001" "Aani" 0 [] "T" =
      ⟨[settledMandate], []⟩ :=
  (execute_only_eligible ⟨[settledMandate], []⟩ "M-0001" "Aani" 0 [] "T").2.1 (by decide)

/-- C2: executing an eligible mandate sets its status to the raw gateway
status string (one of SETTLED/PENDING/FAILED) and appends exactly one
PAYMENT_EXECUTED event, signed and embedding the full gateway response. -/
theorem execute_applies_gateway_status :
    ∀ (s : SessionState) (sel_id rail : String) (rng : Fin 3) (uuidHex : List Char)
      (now : String) (m : Mandate),
      (s.mandates.filter payEligible).find? (fun x => x.mandate_id == sel_id) = some m →
      ((mock_aani_payment_api m rail rng uuidHex now).status = "SETTLED" ∨
       (mock_aani_payment_api m rail rng uuidHex now).status = "PENDING" ∨
       (mock_aani_payment_api m rail rng uuidHex now).status = "FAILED") ∧
      (∃ i, s.mandates.get? i = some m ∧
        (executePayment s sel_id rail rng uuidHex now).mandates.get? i =
          some { m with status := (mock_aani_payment_api m rail rng uuidHex now).status }) ∧
      (executePayment s sel_id rail rng uuidHex now).audit_log = s.audit_log ++
        [AuditEvent.paymentExecuted m.mandate_id
           (mock_aani_payment_api m rail rng uuidHex now).transactionId
           (mock_aani_payment_api m rail rng uuidHex now).status rail now agent_identity
           (sign_payload [("mandate_id", .str m.mandate_id),
              ("txid", .str (mock_aani_payment_api m rail rng uuidHex now).transactionId)])
           (mock_aani_payment_api m rail rng uuidHex now)] := by
  intro s sel_id rail rng uuidHex now m hfind
  refine ⟨?_, ?_, ?_⟩
  · rcases rng with ⟨v, hv⟩
    interval_cases v
    · exact Or.inl rfl
    · exact Or.inr (Or.inl rfl)
    · exact Or.inr (Or.inr rfl)
  · have hfind' :
        s.mandates.find? (fun x => payEligible x && (x.mandate_id == sel_id)) = some m := by
      rw [← find?_filter]
      exact hfind
    obtain ⟨i, h1, h2⟩ := updateFirst_find?
      (fun x => payEligible x && (x.mandate_id == sel_id))
      (fun x => { x with status := (mock_aani_payment_api m rail rng uuidHex now).status })
      hfind'
    refine ⟨i, h1, ?_⟩
    unfold executePayment
    rw [hfind]
    exact h2
  · unfold executePayment
    rw [hfind]

/-- Witness for C2 at a concrete eligible state and draw. -/
theorem execute_applies_gateway_status_witness :
    (mock_aani_payment_api sampleMandate "Aani" 0 [] "T").status = "SETTLED" ∨
    (mock_aani_payment_api sampleMandate "Aani" 0 [] "T").status = "PENDING" ∨
    (mock_aani_payment_api sampleMandate "Aani" 0 [] "T").status = "FAILED" :=
  (execute_applies_gateway_status ⟨[sampleMandate], []⟩ "M-0001" "Aani" 0 [] "T"
      sampleMandate (by decide)).1

/-- C6: successful mandate creation appends exactly two audit events, in
order MANDATE_ISSUED (signed) then CBUAE_CONSENT_REGISTERED; successful risk
screening and payment execution each append exactly one; operations that do
not go through leave the log unchanged. -/
theorem audit_log_growth :
    ∀ s : SessionState,
      (∀ u a amt cur p hex now, ∃ e1 e2,
          (createMandate s u a amt cur p hex now).audit_log = s.audit_log ++ [e1, e2] ∧
          eventName e1 = "MANDATE_ISSUED" ∧ (eventSignature e1).isSome = true ∧
          eventName e2 = "CBUAE_CONSENT_REGISTERED") ∧
      (∀ sel rng now,
          ((s.mandates.filter riskEligible).find? (fun m => m.mandate_id == sel)).isSome
              = true →
          (runRiskScreening s sel rng now).audit_log.length = s.audit_log.length + 1) ∧
      (∀ sel rng now,
          (s.mandates.filter riskEligible).find? (fun m => m.mandate_id == sel) = none →
          runRiskScreening s sel rng now = s) ∧
      (∀ sel rail rng hex now,
          ((s.mandates.filter payEligible).find? (fun m => m.mandate_id == sel)).isSome
              = true →
          (executePayment s sel rail rng hex now).audit_log.length
            = s.audit_log.length + 1) ∧
      (∀ sel rail rng hex now,
          (s.mandates.filter payEligible).find? (fun m => m.mandate_id == sel) = none →
          executePayment s sel rail rng hex now = s) := by
  intro s
  refine ⟨fun u a amt cur p hex now => ⟨_, _, rfl, rfl, rfl, rfl⟩,
    fun sel rng now hfind => ?_, fun sel rng now hfind => ?_,
    fun sel rail rng hex now hfind => ?_, fun sel rail rng hex now hfind => ?_⟩
  · unfold runRiskScreening
    cases hf : (s.mandates.filter riskEligible).find? (fun m => m.mandate_id == sel) with
    | none => rw [hf] at hfind; simp at hfind
    | some m => simp
  · unfold runRiskScreening
    rw [hfind]
  · unfold executePayment
    cases hf : (s.mandates.filter payEligible).find? (fun m => m.mandate_id == sel) with
    | none => rw [hf] at hfind; simp at hfind
    | some m => simp
  · unfold executePayment
    rw [hfind]

/-- Witness for C6: one risk screening on an eligible mandate grows the log
by one. -/
theorem audit_log_growth_witness :
    (runRiskScreening ⟨[sampleMandate], []⟩ "M-0001" 0 "T").audit_log.length =
      (⟨[sampleMandate], []⟩ : SessionState).audit_log.length + 1 :=
  (audit_log_growth ⟨[sampleMandate], []⟩).2.1 "M-0001" 0 "T" (by decide)

/-- C7: the audit log is append-only across all core operations: each
operation extends the previous log at its end, and the Audit step reads the
log (in reverse order) without changing the state. -/
theorem audit_log_append_only :
    ∀ s : SessionState,
      (∀ u a amt cur p hex now, ∃ t,
          (createMandate s u a amt cur p hex now).audit_log = s.audit_log ++ t) ∧
      (∀ sel rng now, ∃ t,
          (runRiskScreening s sel rng now).audit_log = s.audit_log ++ t) ∧
      (∀ sel rail rng hex now, ∃ t,
          (executePayment s sel rail rng hex now).audit_log = s.audit_log ++ t) ∧
      (auditStep s).1 = s ∧ (auditStep s).2 = s.audit_log.reverse := by
  intro s
  refine ⟨fun u a amt cur p hex now => ⟨_, rfl⟩,
    fun sel rng now => ?_, fun sel rail rng hex now => ?_, rfl, rfl⟩
  · unfold runRiskScreening
    cases hf : (s.mandates.filter riskEligible).find? (fun m => m.mandate_id == sel) with
    | none => exact ⟨[], (List.append_nil _).symm⟩
    | some m => exact ⟨_, rfl⟩
  · unfold executePayment
    cases hf : (s.mandates.filter payEligible).find? (fun m => m.mandate_id == sel) with
    | none => exact ⟨[], (List.append_nil _).symm⟩
    | some m => exact ⟨_, rfl⟩

/-- C8 counterexample: the creation handler performs no validation at all:
invoked with amount -1 (≤ 0) and the unsupported currency "XXX" it still
creates a mandate and emits two audit events, and no ValidationError exists
anywhere in the code. -/
theorem create_no_validation_counterexample :
    (createMandate initialState "U" "A" (-1) "XXX" "p" [] "T").mandates.length = 1 ∧
    (createMandate initialState "U" "A" (-1) "XXX" "p" [] "T").audit_log.length = 2 ∧
    (-1 : Rat) ≤ 0 ∧ "XXX" ∉ formCurrencyOptions := by
  refine ⟨rfl, rfl, by norm_num, by decide⟩

/-- C8 (amended): invalid inputs are prevented upstream by the form widgets
(amount `min_value=0.01`, currency selectbox over {AED, USD, EUR}), not by a
ValidationError: the creation handler itself validates nothing and, for any
submitted input whatsoever, creates the mandate and emits the two events. -/
theorem create_validation_amended :
    (∀ (s : SessionState) (u a : String) (amt : Rat) (cur p : String)
        (hex : List Char) (now : String),
        (createMandate s u a amt cur p hex now).mandates.length
            = s.mandates.length + 1 ∧
        (createMandate s u a amt cur p hex now).audit_log.length
            = s.audit_log.length + 2) ∧
    (∀ amt : Rat, formAmountOk amt = true → 0 < amt) ∧
    formCurrencyOptions = ["AED", "USD", "EUR"] := by
  refine ⟨fun s u a amt cur p hex now => ⟨rfl, ?_⟩, fun amt h => ?_, rfl⟩
  · show (s.audit_log ++ [_, _]).length = s.audit_log.length + 2
    simp
  · have h1 : mkRat 1 100 ≤ amt := of_decide_eq_true h
    have h2 : (0 : Rat) < mkRat 1 100 := by norm_num
    linarith

/-- Witness for C8's amended statement at concrete inputs. -/
theorem create_validation_amended_witness :
    (0 : Rat) < 500 ∧
    (createMandate initialState "U" "A" 500 "AED" "p" [] "T").audit_log.length =
      initialState.audit_log.length + 2 :=
  ⟨create_validation_amended.2.1 500 (by decide),
   (create_validation_amended.1 initialState "U" "A" 500 "AED" "p" [] "T").2⟩

/-- C9: converting a mandate that is an IntentMandate with status ACTIVE (or
ISSUED) succeeds, turning it in place into a PaymentMandate with status
ISSUED and emitting an INTENT_CONVERTED event; converting a PaymentMandate
fails with InvalidStateError. -/
theorem convert_spec :
    ∀ (s : SessionState) (sel now : String) (m : Mandate),
      s.mandates.find? (fun x => x.mandate_id == sel) = some m →
      ((m.mandate_type = "IntentMandate" → (m.status = "ACTIVE" ∨ m.status = "ISSUED") →
          ∃ s', convertMandate s sel now = Except.ok s' ∧
            (∃ i, s.mandates.get? i = some m ∧
                s'.mandates.get? i =
                  some { m with mandate_type := "PaymentMandate", status := "ISSUED" }) ∧
            s'.audit_log = s.audit_log ++ [AuditEvent.intentConverted m.mandate_id now]) ∧
       (m.mandate_type = "PaymentMandate" →
          convertMandate s sel now = Except.error ConvertError.invalidStateError)) := by
  intro s sel now m hfind
  constructor
  · intro htype hstatus
    have hcond : (m.mandate_type == "IntentMandate" &&
        (m.status == "ACTIVE" || m.status == "ISSUED")) = true := by
      rw [htype]
      rcases hstatus with h | h <;> rw [h] <;> rfl
    obtain ⟨i, h1, h2⟩ := updateFirst_find? (fun (x : Mandate) => x.mandate_id == sel)
      (fun (x : Mandate) =>
        { x with mandate_type := "PaymentMandate", status := "ISSUED" }) hfind
    refine ⟨{ mandates := updateFirst (fun x => x.mandate_id == sel)
                (fun x => { x with mandate_type := "PaymentMandate", status := "ISSUED" })
                s.mandates,
              audit_log := s.audit_log ++ [AuditEvent.intentConverted m.mandate_id now] },
      ?_, ⟨i, h1, h2⟩, rfl⟩
    unfold convertMandate
    rw [hfind]
    show (if (m.mandate_type == "IntentMandate" &&
        (m.status == "ACTIVE" || m.status == "ISSUED")) then _ else _) = _
    rw [if_pos hcond]
  · intro htype
    have hcond : (m.mandate_type == "IntentMandate" &&
        (m.status == "ACTIVE" || m.status == "ISSUED")) = false := by
      rw [htype]
      rfl
    unfold convertMandate
    rw [hfind]
    show (if (m.mandate_type == "IntentMandate" &&
        (m.status == "ACTIVE" || m.status == "ISSUED")) then _ else _) = _
    rw [if_neg (by simp [hcond])]

/-- Witness for C9: both branches at concrete mandates. -/
theorem convert_spec_witness :
    convertMandate ⟨[paymentMandate0], []⟩ "M-0001" "T" =
      Except.error ConvertError.invalidStateError ∧
    ∃ s', convertMandate ⟨[sampleMandate], []⟩ "M-0001" "T" = Except.ok s' ∧
      (∃ i, (⟨[sampleMandate], []⟩ : SessionState).mandates.get? i = some sampleMandate ∧
          s'.mandates.get? i = some { sampleMandate with
            mandate_type := "PaymentMandate", status := "ISSUED" }) ∧
      s'.audit_log = ([] : List AuditEvent) ++ [AuditEvent.intentConverted "M-0001" "T"] :=
  ⟨(convert_spec ⟨[paymentMandate0], []⟩ "M-0001" "T" paymentMandate0 (by decide)).2 rfl,
   (convert_spec ⟨[sampleMandate], []⟩ "M-0001" "T" sampleMandate (by decide)).1
     rfl (Or.inl rfl)⟩

/-- C10: every mandate the consent flow creates is an IntentMandate with
status ACTIVE, carries an id of the form "M-" followed by 10 uppercase hex
characters (the uppercased first 10 chars of the uuid4 hex), and is inserted
at the head of the store. -/
theorem create_initial_mandate_shape :
    ∀ (s : SessionState) (u a : String) (amt : Rat) (cur p : String)
      (hex : List Char) (now : String),
      hex.length = 32 → (∀ c ∈ hex, c ∈ "0123456789abcdef".data) →
      ∃ m, (createMandate s u a amt cur p hex now).mandates = m :: s.mandates ∧
        m.mandate_type = "IntentMandate" ∧ m.status = "ACTIVE" ∧
        ∃ ds : List Char, m.mandate_id = "M-" ++ String.mk ds ∧ ds.length = 10 ∧
          ∀ c ∈ ds, c ∈ "0123456789ABCDEF".data := by
  intro s u a amt cur p hex now hlen hhex
  refine ⟨_, rfl, rfl, rfl, (hex.take 10).map Char.toUpper, rfl, ?_, ?_⟩
  · rw [List.length_map, List.length_take, hlen]
    exact min_eq_left (by norm_num)
  · intro c hc
    rw [List.mem_map] at hc
    obtain ⟨c', hc1, hc2⟩ := hc
    have hmem : c' ∈ hex := List.take_subset _ _ hc1
    subst hc2
    exact (show ∀ x ∈ "0123456789abcdef".data,
        Char.toUpper x ∈ "0123456789ABCDEF".data by decide) c' (hhex c' hmem)

/-- Witness for C10 at a concrete 32-character uuid hex string. -/
theorem create_initial_mandate_shape_witness :
    ∃ m, (createMandate initialState "U" "A" 500 "AED" "p"
        ("0123456789abcdef0123456789abcdef".data) "T").mandates =
        m :: initialState.mandates ∧
      m.mandate_type = "IntentMandate" ∧ m.status = "ACTIVE" ∧
      ∃ ds : List Char, m.mandate_id = "M-" ++ String.mk ds ∧ ds.length = 10 ∧
        ∀ c ∈ ds, c ∈ "0123456789ABCDEF".data :=
  create_initial_mandate_shape initialState "U" "A" 500 "AED" "p" _ "T"
    (by decide) (by decide)
